import Mathlib

/-!
Shallow embedding of `chatgpt.py`, a single-file terminal chat client.

The program's observable world is modelled explicitly:
* file contents are modelled at the JSON level (`Json`), the history file as
  `FS` (`none` = file absent);
* the outcome of `json.loads` on the on-disk text is an input to
  `load_history` (`FileState`): the parse itself is external text processing,
  its three possible outcomes (no file, parse error, parsed value) are what
  the code branches on;
* the remote API (`client.responses.create`) is an oracle
  `api : String → List Turn → Except Err String` returning either the answer
  text or a raised exception;
* a possible write failure inside `save_history` is an oracle flag
  `writeFails`;
* `sys.argv[1:]`, `sys.stdin.isatty()`, the text `sys.stdin.read()` would
  return, and the successive lines `input()` would return are the fields of
  `Inp`;
* an uncaught Python exception is the `crashed` field of the result
  (the interpreter then exits with status 1).
-/

namespace ChatGPT

/-- A JSON value, as produced by `json.loads`. -/
inductive Json where
  | null
  | bool (b : Bool)
  | num (n : Int)
  | str (s : String)
  | arr (elems : List Json)
  | obj (fields : List (String × Json))


/-- One message: a Python dict `{"role": r, "content": c}`. -/
structure Turn where
  role : String
  content : String


/-- The JSON object a `Turn` serializes to. -/
def turnJson (t : Turn) : Json :=
  .obj [("role", .str t.role), ("content", .str t.content)]

/-- The JSON array a transcript serializes to (what `json.dumps` writes). -/
def transcriptJson (h : List Turn) : Json :=
  .arr (h.map turnJson)

/-- The file system visible to the program: the single history file
`~/.chatgpt_history.json`, `none` when absent, contents at JSON level. -/
structure FS where
  histFile : Option Json


/-- A raised Python exception, carrying its message. -/
inductive Err where
  | exc (msg : String)


/-- Python `str.strip()`: drop whitespace from both ends. -/
def strip (s : String) : String :=
  ⟨((s.data.dropWhile Char.isWhitespace).reverse.dropWhile Char.isWhitespace).reverse⟩

/-- Python `str.lower()`. -/
def lower (s : String) : String :=
  ⟨s.data.map Char.toLower⟩

/-- Python `l[-n:]`: the suffix of the most recent `n` elements. -/
def lastN (n : Nat) (l : List α) : List α :=
  l.drop (l.length - n)

/-- `MODEL_DEFAULT` from the source. -/
def MODEL_DEFAULT : String := "gpt-4.1-mini"

/-- The state of the history file as `load_history` observes it:
absent, present but `json.loads` raises, or present and parsed to `v`. -/
inductive FileState where
  | absent
  | unparseable (raw : String)
  | parsed (v : Json)

/-- `load_history()`: if the file exists, try to parse it and return the
parsed value as-is; on a parse exception return `[]`; on a missing file
return `[]`. -/
def load_history : FileState → Json
  | .absent => .arr []
  | .unparseable _ => .arr []
  | .parsed v => v

/-- `HISTORY_PATH.write_text(json.dumps(history, indent=2))`: the write may
fail (disk permissions, file issues), modelled by the `writeFails` oracle. -/
def writeHistFile (writeFails : Bool) (_fs : FS) (v : Json) : Except Err FS :=
  if writeFails then .error (.exc "write failed") else .ok ⟨some v⟩

/-- `save_history(history)`: serialize and write inside
`try: ... except Exception: pass`. -/
def save_history (writeFails : Bool) (fs : FS) (history : List Turn) : Except Err FS :=
  match writeHistFile writeFails fs (transcriptJson history) with
  | .ok fs' => .ok fs'
  | .error _ => .ok fs

/-- `get_prompt_from_args_or_stdin()`. `argv` is `sys.argv[1:]`. -/
def get_prompt_from_args_or_stdin (argv : List String) (stdin_isatty : Bool)
    (stdin_contents : String) : String :=
  if 0 < argv.length then
    strip (String.intercalate " " argv)
  else if ¬ stdin_isatty then
    strip stdin_contents
  else
    ""

/-- `prompt.lower() in {"exit", "quit"}`. -/
def isExitCmd (p : String) : Bool :=
  lower p == "exit" || lower p == "quit"

/-- Result of running the REPL loop (or of a whole invocation, see
`RunResult`): `error` is an uncaught exception propagating out, `apiCalls`
records each remote request (model, message list) actually issued. -/
structure ReplResult where
  error : Option Err
  history : List Turn
  fs : FS
  output : List String
  apiCalls : List (String × List Turn)


/-- The `while True` loop of `repl`, run over the successive results of
`input()` (`[]` = end of input, i.e. `EOFError`). Each iteration: strip the
line; skip empty lines; break on exit/quit; otherwise append the user turn,
truncate to the last 60, call the API, print the answer, append the
assistant turn, save. -/
def replLoop (api : String → List Turn → Except Err String) (model : String)
    (writeFails : Bool) : List String → List Turn → FS → ReplResult
  | [], history, fs => ⟨none, history, fs, [""], []⟩
  | line :: rest, history, fs =>
    let prompt := strip line
    if prompt = "" then
      replLoop api model writeFails rest history fs
    else if isExitCmd prompt then
      ⟨none, history, fs, [], []⟩
    else
      let h2 := lastN 60 (history ++ [⟨"user", prompt⟩])
      match api model h2 with
      | .error e => ⟨some e, h2, fs, [], [(model, h2)]⟩
      | .ok raw =>
        let answer := strip raw
        let h3 := h2 ++ [⟨"assistant", answer⟩]
        match save_history writeFails fs h3 with
        | .error e => ⟨some e, h3, fs, [answer, ""], [(model, h2)]⟩
        | .ok fs' =>
          let r := replLoop api model writeFails rest h3 fs'
          ⟨r.error, r.history, r.fs, answer :: "" :: r.output, (model, h2) :: r.apiCalls⟩

/-- Process environment: `OPENAI_API_KEY` and `OPENAI_MODEL`
(`none` = variable unset). -/
structure Env where
  openai_api_key : Option String
  openai_model : Option String

/-- Process input: `sys.argv[1:]`, `sys.stdin.isatty()`, what
`sys.stdin.read()` would return, and the successive lines `input()` would
return before end of input (only one of the last two is ever consulted in a
given run). -/
structure Inp where
  argv : List String
  stdin_isatty : Bool
  stdin_contents : String
  stdin_lines : List String

/-- `not api_key` in Python: `os.getenv` returned `None` or the empty
string. -/
def keyMissing (env : Env) : Bool :=
  match env.openai_api_key with
  | none => true
  | some k => k == ""

/-- `os.getenv("OPENAI_MODEL", MODEL_DEFAULT)`. -/
def modelOf (env : Env) : String :=
  env.openai_model.getD MODEL_DEFAULT

/-- The prompt `main` computes for this invocation. -/
def promptOf (inp : Inp) : String :=
  get_prompt_from_args_or_stdin inp.argv inp.stdin_isatty inp.stdin_contents

/-- The two diagnostic lines printed to stderr when the key is missing. -/
def keyErrLines : List String :=
  ["Error: OPENAI_API_KEY is not set.",
   "Set it with: export OPENAI_API_KEY=\x27sk-...\x27"]

/-- The usage message printed to stderr when no prompt is available. -/
def usageLines : List String :=
  ["Usage:",
   "  chatgpt \"Your question here\"",
   "  chatgpt explain bfs",
   "  cat file.txt | chatgpt",
   "  chatgpt --reset"]

/-- The REPL welcome banner. -/
def welcomeLine : String :=
  "Welcome to the terminal of GPT (to quit -> \x27exit\x27)"

/-- Outcome of one whole invocation: exit status, uncaught exception if the
process crashed (the interpreter then exits with status 1, recorded in
`exitCode`), stdout lines, stderr lines, final file system, and the remote
requests issued. -/
structure RunResult where
  exitCode : Nat
  crashed : Option Err
  stdout : List String
  stderr : List String
  fs : FS
  apiCalls : List (String × List Turn)


/-- `main()`. `loaded` is the transcript `load_history()` yields when `main`
reaches a `history = load_history()` line (the well-formed-file view; the
raw behaviour of `load_history` on arbitrary file states is its own
definition above). -/
def main (env : Env) (inp : Inp) (loaded : List Turn)
    (api : String → List Turn → Except Err String) (writeFails : Bool)
    (fs : FS) : RunResult :=
  if keyMissing env then
    ⟨1, none, [], keyErrLines, fs, []⟩
  else
    let model := modelOf env
    let prompt := promptOf inp
    if prompt = "--reset" then
      ⟨0, none, ["History cleared."], [], ⟨none⟩, []⟩
    else if prompt = "" ∧ inp.stdin_isatty then
      let r := replLoop api model writeFails inp.stdin_lines loaded fs
      ⟨if r.error.isSome then 1 else 0, r.error, welcomeLine :: r.output, [],
        r.fs, r.apiCalls⟩
    else if prompt = "" then
      ⟨2, none, [], usageLines, fs, []⟩
    else
      let h2 := lastN 60 (loaded ++ [⟨"user", prompt⟩])
      match api model h2 with
      | .error e => ⟨1, some e, [], [], fs, [(model, h2)]⟩
      | .ok raw =>
        let answer := strip raw
        let h3 := h2 ++ [⟨"assistant", answer⟩]
        match save_history writeFails fs h3 with
        | .error e => ⟨1, some e, [answer], [], fs, [(model, h2)]⟩
        | .ok fs' => ⟨0, none, [answer], [], fs', [(model, h2)]⟩

/-- Number of entries in the persisted history file, when it holds a JSON
array. -/
def fileEntryCount (fs : FS) : Option Nat :=
  match fs.histFile with
  | some (.arr xs) => some xs.length
  | _ => none

/-- Is `v` an array of two-field `{role, content}` string objects? The shape
`load_history` is documented to return but never checks. -/
def isTurnObj : Json → Bool
  | .obj [(k1, .str _), (k2, .str _)] => k1 == "role" && k2 == "content"
  | _ => false

/-- Shape check for a whole transcript value. -/
def isTranscriptShape : Json → Bool
  | .arr xs => xs.all isTurnObj
  | _ => false

/-- A transcript already at the cap: 60 entries. -/
def histSixty : List Turn := List.replicate 60 ⟨"user", "x"⟩

theorem lastN_length (n : Nat) (l : List α) :
    (lastN n l).length = l.length - (l.length - n) := by
  simp [lastN]

theorem lastN_suffix (n : Nat) (l : List α) :
    l.take (l.length - n) ++ lastN n l = l :=
  List.take_append_drop _ _

theorem isExitCmd_ne_empty {p : String} (h : isExitCmd p = true) : p ≠ "" := by
  intro he
  rw [he] at h
  exact absurd h (by decide)

theorem replLoop_apiError (api : String → List Turn → Except Err String)
    (model : String) (writeFails : Bool) (line : String) (rest : List String)
    (history : List Turn) (fs : FS) (e : Err)
    (hne : strip line ≠ "") (hex : isExitCmd (strip line) = false)
    (hapi : api model (lastN 60 (history ++ [⟨"user", strip line⟩])) = .error e) :
    replLoop api model writeFails (line :: rest) history fs
      = ⟨some e, lastN 60 (history ++ [⟨"user", strip line⟩]), fs, [],
          [(model, lastN 60 (history ++ [⟨"user", strip line⟩]))]⟩ := by
  simp [replLoop, hne, hex, hapi]

theorem replLoop_cons_ok (api : String → List Turn → Except Err String)
    (model : String) (line : String) (rest : List String)
    (history : List Turn) (fs : FS) (raw : String)
    (hne : strip line ≠ "") (hex : isExitCmd (strip line) = false)
    (hapi : api model (lastN 60 (history ++ [⟨"user", strip line⟩])) = .ok raw) :
    replLoop api model false (line :: rest) history fs
      = (let h3 := lastN 60 (history ++ [⟨"user", strip line⟩])
            ++ [⟨"assistant", strip raw⟩]
         let r := replLoop api model false rest h3 ⟨some (transcriptJson h3)⟩
         ⟨r.error, r.history, r.fs, strip raw :: "" :: r.output,
           (model, lastN 60 (history ++ [⟨"user", strip line⟩])) :: r.apiCalls⟩) := by
  simp [replLoop, hne, hex, hapi, save_history, writeHistFile]

/-- C2: `load_history` never raises (it is a total function of the observed
file state): a missing history file yields the empty transcript, and any
file contents on which the JSON parse fails also yield the empty
transcript. -/
theorem load_history_missing_or_corrupt_empty :
    load_history .absent = .arr []
      ∧ ∀ raw : String, load_history (.unparseable raw) = .arr [] :=
  ⟨rfl, fun _ => rfl⟩

/-- C10: `load_history` performs no shape validation: every successfully
parsed JSON value is returned as-is, in particular a bare number, which is
not an array of role/content objects, is returned unchanged rather than
replaced by the empty transcript. -/
theorem load_history_no_shape_validation :
    (∀ v : Json, load_history (.parsed v) = v)
      ∧ load_history (.parsed (.num 5)) = .num 5
      ∧ isTranscriptShape (.num 5) = false :=
  ⟨fun _ => rfl, rfl, rfl⟩

/-- C3: `save_history` never raises: for every transcript and whether or not
the underlying write fails it returns normally; on a failed write the file
is left unchanged (the session continues with the transcript unpersisted),
on a successful write the file holds the serialized transcript. -/
theorem save_history_never_raises (writeFails : Bool) (fs : FS) (h : List Turn) :
    (∃ fs', save_history writeFails fs h = .ok fs')
      ∧ save_history true fs h = .ok fs
      ∧ save_history false fs h = .ok ⟨some (transcriptJson h)⟩ := by
  refine ⟨?_, rfl, rfl⟩
  cases writeFails
  · exact ⟨_, rfl⟩
  · exact ⟨_, rfl⟩

/-- C5: the prompt is resolved by priority: with command-line arguments
present it is the arguments joined by single spaces and trimmed, and the
result does not depend on stdin at all; with no arguments and a
non-interactive stdin it is the trimmed stdin contents; otherwise it is the
empty string signaling interactive mode. -/
theorem prompt_resolution (argv : List String) (tty : Bool) (contents : String) :
    (argv ≠ [] →
      get_prompt_from_args_or_stdin argv tty contents
          = strip (String.intercalate " " argv)
        ∧ ∀ tty' contents', get_prompt_from_args_or_stdin argv tty' contents'
            = strip (String.intercalate " " argv))
    ∧ get_prompt_from_args_or_stdin [] false contents = strip contents
    ∧ get_prompt_from_args_or_stdin [] true contents = "" := by
  refine ⟨fun h => ?_, ?_, ?_⟩
  · have hl : 0 < argv.length := List.length_pos.mpr h
    exact ⟨by simp [get_prompt_from_args_or_stdin, hl],
      fun tty' contents' => by simp [get_prompt_from_args_or_stdin, hl]⟩
  · simp [get_prompt_from_args_or_stdin]
  · simp [get_prompt_from_args_or_stdin]

/-- Witness for C5 at the spec its own example: args `explain bfs` resolve
to the prompt `explain bfs` even at an interactive terminal. -/
theorem prompt_resolution_witness :
    get_prompt_from_args_or_stdin ["explain", "bfs"] true "ignored"
      = "explain bfs" := by
  have h := ((prompt_resolution ["explain", "bfs"] true "ignored").1 (by simp)).1
  rw [h]
  rfl

/-- C6: a line whose trimmed text is `exit` or `quit` case-insensitively
terminates the loop at once: no remote call is recorded, the transcript and
the file are unchanged, nothing is printed, and later lines are not read. -/
theorem exit_quit_terminates (api : String → List Turn → Except Err String)
    (model : String) (writeFails : Bool) (line : String) (rest : List String)
    (history : List Turn) (fs : FS)
    (hex : isExitCmd (strip line) = true) :
    replLoop api model writeFails (line :: rest) history fs
      = ⟨none, history, fs, [], []⟩ := by
  have hne : ¬ strip line = "" := isExitCmd_ne_empty hex
  simp [replLoop, hne, hex]

/-- Witness for C6: the line `EXIT` stops the loop with an API oracle that
would fail if called, a following line that would otherwise be processed,
and a nonempty transcript left exactly as it was. -/
theorem exit_quit_terminates_witness :
    replLoop (fun _ _ => .error (.exc "boom")) "m" false ["EXIT", "hi"]
        [⟨"user", "a"⟩] ⟨none⟩
      = ⟨none, [⟨"user", "a"⟩], ⟨none⟩, [], []⟩ :=
  exit_quit_terminates _ _ _ _ _ _ _ (by decide)

/-- C7: a line that is empty after trimming is a self-transition: the
iteration equals the loop restarted on the remaining lines with the same
transcript and the same file system, so nothing is appended, called,
printed or written for that line. -/
theorem empty_line_self_transition (api : String → List Turn → Except Err String)
    (model : String) (writeFails : Bool) (line : String) (rest : List String)
    (history : List Turn) (fs : FS)
    (hempty : strip line = "") :
    replLoop api model writeFails (line :: rest) history fs
      = replLoop api model writeFails rest history fs := by
  simp [replLoop, hempty]

/-- Witness for C7: a whitespace-only line before end of input. -/
theorem empty_line_self_transition_witness :
    replLoop (fun _ _ => .ok "x") "m" false ["  "] [] ⟨none⟩
      = replLoop (fun _ _ => .ok "x") "m" false [] [] ⟨none⟩ :=
  empty_line_self_transition _ _ _ _ _ _ _ (by decide)

/-- C9: whenever `OPENAI_API_KEY` is unset or empty, the run prints the two
diagnostic lines to stderr and exits with status 1, before doing anything
else: no stdout, no remote call, no file change, regardless of arguments,
stdin, transcript or oracles. -/
theorem missing_key_fatal (env : Env) (inp : Inp) (loaded : List Turn)
    (api : String → List Turn → Except Err String) (writeFails : Bool) (fs : FS)
    (hkey : keyMissing env = true) :
    main env inp loaded api writeFails fs = ⟨1, none, [], keyErrLines, fs, []⟩ := by
  simp [main, hkey]

/-- Witness for C9: key set to the empty string, with `--reset` on the
command line — the reset is not reached. -/
theorem missing_key_fatal_witness :
    main ⟨some "", none⟩ ⟨["--reset"], true, "", []⟩ []
        (fun _ _ => .ok "a") false ⟨some (.arr [])⟩
      = ⟨1, none, [], keyErrLines, ⟨some (.arr [])⟩, []⟩ :=
  missing_key_fatal _ _ _ _ _ _ rfl

/-- C4 as stated is false: invoked with the single argument `--reset` but no
`OPENAI_API_KEY` in the environment, the run exits with status 1, the
existing history file is not deleted, and no confirmation is printed — the
key check precedes the reset handling. -/
theorem reset_without_key_counterexample :
    (main ⟨none, none⟩ ⟨["--reset"], true, "", []⟩ []
        (fun _ _ => .ok "a") false ⟨some (.arr [])⟩).exitCode = 1
      ∧ (main ⟨none, none⟩ ⟨["--reset"], true, "", []⟩ []
          (fun _ _ => .ok "a") false ⟨some (.arr [])⟩).fs.histFile = some (.arr [])
      ∧ (main ⟨none, none⟩ ⟨["--reset"], true, "", []⟩ []
          (fun _ _ => .ok "a") false ⟨some (.arr [])⟩).stdout = [] :=
  ⟨rfl, rfl, rfl⟩

/-- C4 amended: for every invocation with the single argument `--reset` in
which `OPENAI_API_KEY` is set and non-empty, the history file ends up
absent (whether or not it existed), the confirmation is printed, the exit
status is 0, and no remote call is made. -/
theorem reset_clears_history (env : Env) (inp : Inp) (loaded : List Turn)
    (api : String → List Turn → Except Err String) (writeFails : Bool) (fs : FS)
    (hkey : keyMissing env = false) (hargv : inp.argv = ["--reset"]) :
    main env inp loaded api writeFails fs
      = ⟨0, none, ["History cleared."], [], ⟨none⟩, []⟩ := by
  have hp : promptOf inp = "--reset" := by
    unfold promptOf
    rw [hargv]
    rfl
  simp [main, hkey, hp]

/-- Witness for C4 amended: key present, history file holding a non-array
value, a failing write oracle — the file is deleted and the run exits 0. -/
theorem reset_clears_history_witness :
    main ⟨some "sk-test", none⟩ ⟨["--reset"], false, "", []⟩ []
        (fun _ _ => .ok "a") true ⟨some (.num 3)⟩
      = ⟨0, none, ["History cleared."], [], ⟨none⟩, []⟩ :=
  reset_clears_history _ _ _ _ _ _ rfl rfl

/-- C8: a failing remote call is caught nowhere. In a REPL iteration on a
processed line the exception propagates out of the loop and the history
file is unchanged; through `main` this crashes the process with exit status
1 (non-zero) in REPL mode, and likewise in one-shot mode — in each case the
post-response save is never reached. -/
theorem api_failure_uncaught :
    (∀ (api : String → List Turn → Except Err String) model writeFails line
        rest history fs e,
      strip line ≠ "" → isExitCmd (strip line) = false →
      api model (lastN 60 (history ++ [⟨"user", strip line⟩])) = .error e →
        (replLoop api model writeFails (line :: rest) history fs).error = some e
          ∧ (replLoop api model writeFails (line :: rest) history fs).fs = fs)
    ∧ (∀ env inp loaded (api : String → List Turn → Except Err String)
        writeFails fs e line rest,
      keyMissing env = false → promptOf inp = "" → inp.stdin_isatty = true →
      inp.stdin_lines = line :: rest →
      strip line ≠ "" → isExitCmd (strip line) = false →
      api (modelOf env) (lastN 60 (loaded ++ [⟨"user", strip line⟩])) = .error e →
        (main env inp loaded api writeFails fs).crashed = some e
          ∧ (main env inp loaded api writeFails fs).exitCode = 1
          ∧ (main env inp loaded api writeFails fs).fs = fs)
    ∧ (∀ env inp loaded (api : String → List Turn → Except Err String)
        writeFails fs e,
      keyMissing env = false → promptOf inp ≠ "" → promptOf inp ≠ "--reset" →
      api (modelOf env) (lastN 60 (loaded ++ [⟨"user", promptOf inp⟩])) = .error e →
        (main env inp loaded api writeFails fs).crashed = some e
          ∧ (main env inp loaded api writeFails fs).exitCode = 1
          ∧ (main env inp loaded api writeFails fs).fs = fs) := by
  refine ⟨?_, ?_, ?_⟩
  · intro api model writeFails line rest history fs e hne hex hapi
    rw [replLoop_apiError api model writeFails line rest history fs e hne hex hapi]
    exact ⟨rfl, rfl⟩
  · intro env inp loaded api writeFails fs e line rest hkey hp htty hlines hne hex hapi
    have hr := replLoop_apiError api (modelOf env) writeFails line rest loaded fs e
      hne hex hapi
    simp [main, hkey, hp, htty, hlines, hr]
  · intro env inp loaded api writeFails fs e hkey hp hres hapi
    simp [main, hkey, hp, hres, hapi]

/-- Witness for C8: an always-failing API oracle on the single line `hi`
propagates its exception and leaves the (absent) history file untouched. -/
theorem api_failure_uncaught_witness :
    (replLoop (fun _ _ => .error (.exc "boom")) "m" false ["hi"] [] ⟨none⟩).error
        = some (.exc "boom")
      ∧ (replLoop (fun _ _ => .error (.exc "boom")) "m" false ["hi"] [] ⟨none⟩).fs
        = ⟨none⟩ :=
  api_failure_uncaught.1 (fun _ _ => .error (.exc "boom")) "m" false "hi" [] []
    ⟨none⟩ (.exc "boom") (by decide) (by decide) rfl

/-- C1 as stated is false: starting a REPL turn from a transcript of 60
entries, the file persisted after the turn holds 61 entries, not at most
60 — the truncation to 60 happens before the assistant reply is appended. -/
theorem persisted_exceeds_sixty_counterexample :
    fileEntryCount (replLoop (fun _ _ => .ok "yo") "m" false ["hi"] histSixty
        ⟨none⟩).fs = some 61
      ∧ ¬ (61 ≤ 60) :=
  ⟨rfl, by decide⟩

/-- C1 amended: after a processed turn (REPL iteration on a non-empty,
non-exit line, or a one-shot invocation) with a successful remote call and
a successful write, the persisted transcript is the most recent at most 60
entries — oldest-first, a suffix of the accumulated transcript — of the
transcript with the user turn appended, followed by the assistant reply
appended after truncation: at most 61 entries in all (the at most 60 bound
holds for the truncated context, which is what the remote call receives). -/
theorem processed_turn_persists_suffix :
    (∀ (api : String → List Turn → Except Err String) model line history fs raw,
      strip line ≠ "" → isExitCmd (strip line) = false →
      api model (lastN 60 (history ++ [⟨"user", strip line⟩])) = .ok raw →
      ∃ saved,
        (replLoop api model false [line] history fs).fs.histFile
            = some (transcriptJson saved)
          ∧ saved = lastN 60 (history ++ [⟨"user", strip line⟩])
              ++ [⟨"assistant", strip raw⟩]
          ∧ saved.length ≤ 61
          ∧ (lastN 60 (history ++ [⟨"user", strip line⟩])).length ≤ 60
          ∧ ∃ dropped, dropped ++ saved
              = (history ++ [⟨"user", strip line⟩]) ++ [⟨"assistant", strip raw⟩])
    ∧ (∀ env inp loaded (api : String → List Turn → Except Err String) fs raw,
      keyMissing env = false → promptOf inp ≠ "" → promptOf inp ≠ "--reset" →
      api (modelOf env) (lastN 60 (loaded ++ [⟨"user", promptOf inp⟩])) = .ok raw →
      ∃ saved,
        (main env inp loaded api false fs).fs.histFile = some (transcriptJson saved)
          ∧ saved = lastN 60 (loaded ++ [⟨"user", promptOf inp⟩])
              ++ [⟨"assistant", strip raw⟩]
          ∧ saved.length ≤ 61
          ∧ (lastN 60 (loaded ++ [⟨"user", promptOf inp⟩])).length ≤ 60
          ∧ ∃ dropped, dropped ++ saved
              = (loaded ++ [⟨"user", promptOf inp⟩]) ++ [⟨"assistant", strip raw⟩]) := by
  constructor
  · intro api model line history fs raw hne hex hapi
    rw [replLoop_cons_ok api model line [] history fs raw hne hex hapi]
    refine ⟨_, by simp [replLoop], rfl, ?_, ?_, ?_⟩
    · simp only [List.length_append, List.length_cons, List.length_nil]
      rw [lastN_length]
      omega
    · rw [lastN_length]
      omega
    · exact ⟨_, by rw [← List.append_assoc, lastN_suffix]⟩
  · intro env inp loaded api fs raw hkey hp hres hapi
    have hmain :
        (main env inp loaded api false fs).fs
          = ⟨some (transcriptJson (lastN 60 (loaded ++ [⟨"user", promptOf inp⟩])
              ++ [⟨"assistant", strip raw⟩]))⟩ := by
      simp [main, hkey, hp, hres, hapi, save_history, writeHistFile]
    refine ⟨_, by rw [hmain], rfl, ?_, ?_, ?_⟩
    · simp only [List.length_append, List.length_cons, List.length_nil]
      rw [lastN_length]
      omega
    · rw [lastN_length]
      omega
    · exact ⟨_, by rw [← List.append_assoc, lastN_suffix]⟩

/-- Witness for C1 amended: one REPL turn from the empty transcript with
answer text that needs trimming. -/
theorem processed_turn_persists_suffix_witness :
    ∃ saved,
      (replLoop (fun _ _ => .ok " hello ") "m" false ["hi"] [] ⟨none⟩).fs.histFile
          = some (transcriptJson saved)
        ∧ saved = lastN 60 (([] : List Turn) ++ [Turn.mk "user" (strip "hi")])
            ++ [Turn.mk "assistant" (strip " hello ")]
        ∧ saved.length ≤ 61
        ∧ (lastN 60 (([] : List Turn) ++ [Turn.mk "user" (strip "hi")])).length ≤ 60
        ∧ ∃ dropped, dropped ++ saved
            = (([] : List Turn) ++ [Turn.mk "user" (strip "hi")])
              ++ [Turn.mk "assistant" (strip " hello ")] :=
  processed_turn_persists_suffix.1 (fun _ _ => .ok " hello ") "m" "hi" [] ⟨none⟩
    " hello " (by decide) (by decide) rfl

end ChatGPT
